import Mathlib

/-!
Verification of `deform/form.py` (the `Field` / `Form` / `Button` core of the
deform form library).

The Python module is embedded shallowly:

* A schema node (the colander schema contract consumed by `Field.__init__`,
  `Field.widget`, `Field.default` and `Field.validate`) becomes the inductive
  `Schema`: `name`, `title`, `description`, `required`, `typ` (with its
  optional `default_widget_maker`), `sdefault` and an ordered `children`
  list.
* A `Field` instance's observable state becomes the inductive `Field`:
  the attributes set by `Field.__init__` (`schema`, `renderer`, `name`,
  `title`, `description`, `required`, `children`) plus the lazily reified
  attributes `widget` and `default`, each modelled as an `Option` cache
  (`none` = the attribute has not been computed or assigned yet, i.e. it is
  absent from the instance `__dict__`), and the `error` attribute
  (class-level default `None`, so `none` initially).
* Python mutation is modelled by explicit state passing: attribute access
  that may memoize returns the new `Field` value, and `validate` returns the
  result together with the post-call field state.
* Widget instances are identified by the inductive `Widget`; the behaviour
  of the widget/parser/schema collaborators (`peppercorn.parse`,
  `widget.deserialize`, `widget.handle_error`, `schema.deserialize`) is a
  parameter bundle `Collab`, since those live outside this module.
  Exceptions become an `Except` error channel (`PyExc`).
-/

namespace Deform

/-- Widget instances, modelled from the spec: `deform/widget.py` is not part
of the sources under study; the spec only requires a generic text-input
widget, the fixed form-level widget, and arbitrary other widget objects
(`custom`). -/
inductive Widget where
  | textInput : Widget
  | formWidget : Widget
  | custom : Nat → Widget
deriving DecidableEq, Repr

/-- The `typ` object of a schema node, as consumed by `Field.widget`:
`getattr(self.schema.typ, 'default_widget_maker', None)` either finds a
factory or yields `None`.  The factory is modelled by the widget it
produces. -/
structure SchemaTyp where
  default_widget_maker : Option Widget
deriving DecidableEq, Repr

/-- A colander schema node, restricted to the attributes `form.py` reads:
`name`, `title`, `description`, `required`, `typ`, `sdefault` and the
ordered `children`. -/
inductive Schema where
  | node : String → String → String → Bool → SchemaTyp → String →
      List Schema → Schema

def Schema.name : Schema → String
  | .node n _ _ _ _ _ _ => n

def Schema.title : Schema → String
  | .node _ t _ _ _ _ _ => t

def Schema.description : Schema → String
  | .node _ _ d _ _ _ _ => d

def Schema.required : Schema → Bool
  | .node _ _ _ r _ _ _ => r

def Schema.typ : Schema → SchemaTyp
  | .node _ _ _ _ ty _ _ => ty

def Schema.sdefault : Schema → String
  | .node _ _ _ _ _ sd _ => sd

def Schema.children : Schema → List Schema
  | .node _ _ _ _ _ _ cs => cs

/-- Observable state of a `deform.form.Field` instance.  Constructor
argument order: `schema`, `renderer`, `name`, `title`, `description`,
`required`, `children` (the attributes `Field.__init__` assigns, in source
order), then the reified caches `widgetCache` and `defaultCache`
(`none` = not yet computed/assigned) and the `error` attribute.  Renderers
are identified by a `Nat` (`0` is `template.default_renderer`); errors by a
`Nat` identifier. -/
inductive Field where
  | mk : Schema → Nat → String → String → String → Bool → List Field →
      Option Widget → Option String → Option Nat → Field

def Field.schema : Field → Schema
  | .mk s _ _ _ _ _ _ _ _ _ => s

def Field.renderer : Field → Nat
  | .mk _ r _ _ _ _ _ _ _ _ => r

def Field.name : Field → String
  | .mk _ _ n _ _ _ _ _ _ _ => n

def Field.title : Field → String
  | .mk _ _ _ t _ _ _ _ _ _ => t

def Field.description : Field → String
  | .mk _ _ _ _ d _ _ _ _ _ => d

def Field.required : Field → Bool
  | .mk _ _ _ _ _ req _ _ _ _ => req

def Field.children : Field → List Field
  | .mk _ _ _ _ _ _ cs _ _ _ => cs

def Field.widgetCache : Field → Option Widget
  | .mk _ _ _ _ _ _ _ wc _ _ => wc

def Field.defaultCache : Field → Option String
  | .mk _ _ _ _ _ _ _ _ dc _ => dc

def Field.error : Field → Option Nat
  | .mk _ _ _ _ _ _ _ _ _ e => e

mutual

/-- Embedding of `Field.__init__(self, schema, renderer=None)`:
`self.schema = schema; self.renderer = renderer or template.default_renderer;
self.name/title/description/required` snapshotted from the schema node;
`self.children = [Field(child, renderer=renderer) for child in
schema.children]` (the original optional `renderer` is passed down).  The
reified `widget`/`default` attributes and the instance-level `error` are not
assigned, hence `none`. -/
def Field.init (renderer : Option Nat) : Schema → Field
  | .node n t d req ty sd cs =>
      .mk (.node n t d req ty sd cs) (renderer.getD 0) n t d req
        (Field.initList renderer cs) none none none

/-- The child-list construction loop of `Field.__init__`, kept in schema
order. -/
def Field.initList (renderer : Option Nat) : List Schema → List Field
  | [] => []
  | c :: cs => Field.init renderer c :: Field.initList renderer cs

end

/-- The loop body of `Field.__getitem__`: scan `self.children` in order,
return the first child whose `name` equals the requested one, else fall
through to `raise KeyError(name)` (the error value carries the name, as
`KeyError(name)` does). -/
def Field.lookupChild (nm : String) : List Field → Except String Field
  | [] => .error nm
  | c :: cs => if c.name = nm then .ok c else Field.lookupChild nm cs

/-- Embedding of `Field.__getitem__(self, name)`. -/
def Field.getitem (f : Field) (nm : String) : Except String Field :=
  Field.lookupChild nm f.children

/-- Overwriting assignment `field.widget = w` (used by `Form.__init__` and
available to callers before first access): puts `w` in the instance
`__dict__`, so the reified computation will never run. -/
def Field.setWidget (w : Widget) : Field → Field
  | .mk s r n t d req cs _ dc e => .mk s r n t d req cs (some w) dc e

/-- The body of the reified `Field.widget` computation:
`widget_maker = getattr(self.schema.typ, 'default_widget_maker', None);
if widget_maker is None: widget_maker = widget.TextInputWidget;
return widget_maker()`. -/
def Field.defaultWidgetFor (s : Schema) : Widget :=
  match s.typ.default_widget_maker with
  | some w => w
  | none => Widget.textInput

/-- Access to the reified attribute `field.widget`.  The caching mechanism
is modelled from the spec: `deform/decorator.py` (the `reify` decorator) is
not among the sources under study; per the spec the attribute is lazy and
memoized, computed at most once, and an assignment before first access
suppresses the computation entirely.  Returns the attribute value, the
post-access field state, and whether the lazy computation (the widget
factory) ran during this access. -/
def Field.getWidget : Field → Widget × Field × Bool
  | .mk s r n t d req cs wc dc e =>
      match wc with
      | some w => (w, .mk s r n t d req cs (some w) dc e, false)
      | none =>
          let w := Field.defaultWidgetFor s
          (w, .mk s r n t d req cs (some w) dc e, true)

/-- Access to the reified attribute `field.default` (`return
self.schema.sdefault`), with the same spec-modelled `reify` caching as
`Field.getWidget`; the `Bool` reports whether the lazy computation ran. -/
def Field.getDefault : Field → String × Field × Bool
  | .mk s r n t d req cs wc dc e =>
      match dc with
      | some v => (v, .mk s r n t d req cs wc (some v) e, false)
      | none => (s.sdefault, .mk s r n t d req cs wc (some s.sdefault) e, true)

mutual

/-- Embedding of `Field.clone(self)`:
`cloned = self.__class__(self.schema)` builds a fresh field, then
`cloned.__dict__.update(self.__dict__)` overwrites every attribute the
fresh construction assigned (`schema`, `renderer`, `name`, `title`,
`description`, `required`, `children`) with the source's, and copies the
source's instance-level `widget`/`default` caches and `error` exactly when
they are present (an absent cache stays absent: `__dict__.update` never
runs the `reify` descriptor); finally
`cloned.children = [field.clone() for field in self.children]`.  The net
observable state is therefore: every non-`children` attribute copied from
the source, and `children` cloned recursively. -/
def Field.clone : Field → Field
  | .mk s r n t d req cs wc dc e =>
      .mk s r n t d req (Field.cloneList cs) wc dc e

/-- The child-cloning list comprehension of `Field.clone`. -/
def Field.cloneList : List Field → List Field
  | [] => []
  | c :: cs => Field.clone c :: Field.cloneList cs

end

/-- Exceptions that can cross `Field.validate`: `colander.Invalid` (the
only class the `try` block catches), `deform.exception.ValidationFailure`
(modelled from the spec: `deform/exception.py` is not among the sources
under study; per the spec it carries the field validated against, the
failed cstruct and the underlying schema error), and any other exception a
collaborator raises (identified by a code). -/
inductive PyExc (C E : Type) where
  | colanderInvalid : E → PyExc C E
  | validationFailure : Field → C → E → PyExc C E
  | other : Nat → PyExc C E

/-- Behaviour of the external collaborators `Field.validate` calls, over
abstract pstruct/cstruct/value/error types `P`, `C`, `V`, `E`:
`peppercorn.parse`, `widget.deserialize(field, pstruct)`,
`widget.handle_error(field, error)` (which may mutate the field tree — it
returns the updated field — or itself raise), and
`schema.deserialize(cstruct)`.  Each may raise (`Except.error`). -/
structure Collab (P C V E : Type) where
  parse : List (String × String) → Except (PyExc C E) P
  wdeserialize : Widget → Field → P → Except (PyExc C E) C
  whandle_error : Widget → Field → E → Except (PyExc C E) Field
  sdeserialize : Schema → C → Except (PyExc C E) V

/-- Embedding of `Field.validate(self, fields)`:

```
pstruct = peppercorn.parse(fields)
cstruct = self.widget.deserialize(self, pstruct)
try:
    return self.schema.deserialize(cstruct)
except colander.Invalid, e:
    self.widget.handle_error(self, e)
    raise exception.ValidationFailure(self, cstruct, e)
```

`self.widget` is the reified access (it may cache the lazily computed
widget as a side effect, so the field state is threaded through both
accesses), and only `colander.Invalid` raised by `schema.deserialize` is
caught; every other exception, from any step, propagates unmodified.  The
result is paired with the post-call state of `self`. -/
def Field.validate {P C V E : Type} (cb : Collab P C V E) (f : Field)
    (fields : List (String × String)) : Except (PyExc C E) V × Field :=
  match cb.parse fields with
  | .error exc => (.error exc, f)
  | .ok pstruct =>
      let wf := f.getWidget
      match cb.wdeserialize wf.1 wf.2.1 pstruct with
      | .error exc => (.error exc, wf.2.1)
      | .ok cstruct =>
          match cb.sdeserialize wf.2.1.schema cstruct with
          | .ok v => (.ok v, wf.2.1)
          | .error (.colanderInvalid e) =>
              let wf2 := wf.2.1.getWidget
              match cb.whandle_error wf2.1 wf2.2.1 e with
              | .error exc => (.error exc, wf2.2.1)
              | .ok f3 => (.error (.validationFailure f3 cstruct e), f3)
          | .error exc => (.error exc, wf.2.1)

/-- Python 2 `str.capitalize()`: the first character uppercased and all
remaining characters lowercased (modelled for ASCII, which covers every
use in this module). -/
def pyCapitalize (s : String) : String :=
  match s.data with
  | [] => ""
  | c :: cs => String.mk (c.toUpper :: cs.map Char.toLower)

/-- Uppercasing only the first character, leaving the rest unchanged.  This
is the literal reading of the spec's "`name` with the first letter
capitalized"; it is compared against the code's `name.capitalize()`
(`pyCapitalize`). -/
def upperFirst (s : String) : String :=
  match s.data with
  | [] => ""
  | c :: cs => String.mk (c.toUpper :: cs)

/-- A form submit button (`deform.form.Button`): `name`, `title`, `value`. -/
structure Button where
  name : String
  title : String
  value : String
deriving DecidableEq, Repr

/-- Embedding of `Button.__init__(self, name='submit', title=None,
value=None)`: `title` defaults to `name.capitalize()` and `value` to
`name`.  The Python default arguments are modelled by `Option` parameters
(`none` = argument not passed). -/
def Button.init (name title value : Option String) : Button :=
  let n := name.getD "submit"
  let t := title.getD (pyCapitalize n)
  let v := value.getD n
  ⟨n, t, v⟩

/-- An entry of the `buttons` sequence passed to `Form.__init__`: either a
string (`isinstance(button, basestring)`) or an already-built `Button`. -/
inductive ButtonSpec where
  | str : String → ButtonSpec
  | btn : Button → ButtonSpec
deriving DecidableEq, Repr

/-- The per-entry conversion of the `Form.__init__` button loop: a string
is wrapped via `Button(button)`, a `Button` is kept as is. -/
def ButtonSpec.toButton : ButtonSpec → Button
  | .str s => Button.init (some s) none none
  | .btn b => b

/-- Observable state of a `deform.form.Form` instance: the inherited
`Field` state plus `action`, `method` and `buttons`. -/
structure Form where
  field : Field
  action : String
  method : String
  buttons : List Button

/-- Embedding of `Form.__init__(self, schema, renderer=None, action='.',
method='POST', buttons=())`: `Field.__init__` builds the field tree, each
string entry of `buttons` is wrapped into a `Button` preserving order,
`action`/`method` are stored (Python default arguments modelled by
`Option`, `none` = not passed), and `self.widget = widget.FormWidget()`
overwrites the reified attribute unconditionally. -/
def Form.init (schema : Schema) (renderer : Option Nat)
    (action method : Option String) (buttons : List ButtonSpec) : Form :=
  let f := Field.init renderer schema
  ⟨Field.setWidget Widget.formWidget f, action.getD ".", method.getD "POST",
    buttons.map ButtonSpec.toButton⟩

mutual

/-- Bool-valued check that a field tree mirrors a schema tree: at every
node the snapshotted `name`/`title`/`description`/`required` equal the
schema node's, and the children lists correspond index by index (hence
equal length and same order). -/
def fieldMatchesSchema : Field → Schema → Bool
  | .mk _ _ n t d req cs _ _ _, .node n' t' d' req' _ _ scs =>
      n == n' && t == t' && d == d' && req == req' &&
        fieldsMatchSchemas cs scs

/-- Pointwise (ordered, equal-length) lifting of `fieldMatchesSchema`. -/
def fieldsMatchSchemas : List Field → List Schema → Bool
  | [], [] => true
  | f :: fs, s :: ss => fieldMatchesSchema f s && fieldsMatchSchemas fs ss
  | _, _ => false

end

mutual

/-- Bool-valued check that every node of a field tree has the given
renderer. -/
def allRenderer (r : Nat) : Field → Bool
  | .mk _ r' _ _ _ _ cs _ _ _ => r' == r && allRendererList r cs

/-- List lifting of `allRenderer`. -/
def allRendererList (r : Nat) : List Field → Bool
  | [] => true
  | f :: fs => allRenderer r f && allRendererList r fs

end

/-! Concrete fixtures used to evaluate the embedding on closed inputs. -/

/-- A leaf schema node with no `default_widget_maker` on its type. -/
def schemaColor : Schema := .node "color" "Color" "" true ⟨none⟩ "" []

/-- A leaf schema node whose type provides a `default_widget_maker`. -/
def schemaPet : Schema :=
  .node "pet" "Pet" "" true ⟨some (.custom 5)⟩ "goldfish" []

/-- A two-child mapping schema node. -/
def schemaRoot : Schema :=
  .node "root" "Root" "" true ⟨none⟩ "" [schemaColor, schemaPet]

/-- A leaf field named `"a"` (title `"first"`). -/
def childA1 : Field := .mk schemaColor 0 "a" "first" "" true [] none none none

/-- A second, distinct leaf field also named `"a"` (title `"second"`). -/
def childA2 : Field := .mk schemaColor 0 "a" "second" "" true [] none none none

/-- A leaf field named `"b"`. -/
def childB : Field := .mk schemaColor 0 "b" "" "" true [] none none none

/-- A leaf field named `"c"`. -/
def childC : Field := .mk schemaColor 0 "c" "" "" true [] none none none

/-- A field with two direct children that share the name `"a"`. -/
def dupField : Field := .mk schemaRoot 0 "p" "" "" true [childA1, childA2] none none none

/-- A field whose direct children have pairwise distinct names. -/
def uniqField : Field := .mk schemaRoot 0 "p" "" "" true [childB, childC] none none none

/-- The field tree built from `schemaRoot` with the default renderer. -/
def rootField : Field := Field.init none schemaRoot

/-- Collaborators for which every step of `validate` succeeds. -/
def cbOk : Collab Nat Nat Nat Nat :=
  ⟨fun _ => .ok 1, fun _ _ _ => .ok 2, fun _ f _ => .ok f, fun _ _ => .ok 42⟩

/-- Collaborators whose `schema.deserialize` raises `colander.Invalid` and
whose `widget.handle_error` mutates the field (it assigns a new widget, a
stand-in for decorating error state). -/
def cbInvalid : Collab Nat Nat Nat Nat :=
  ⟨fun _ => .ok 1, fun _ _ _ => .ok 2,
    fun _ f _ => .ok (f.setWidget (.custom 7)),
    fun _ _ => .error (.colanderInvalid 9)⟩

/-- Collaborators whose `peppercorn.parse` raises a non-`colander.Invalid`
exception. -/
def cbParseBoom : Collab Nat Nat Nat Nat :=
  ⟨fun _ => .error (.other 7), fun _ _ _ => .ok 2, fun _ f _ => .ok f,
    fun _ _ => .ok 42⟩

/-! Helper lemmas about the embedded operations. -/

theorem initList_eq_map (r : Option Nat) (cs : List Schema) :
    Field.initList r cs = cs.map (Field.init r) := by
  induction cs with
  | nil => rfl
  | cons c cs' ih => simp [Field.initList, ih]

theorem cloneList_eq_map (cs : List Field) :
    Field.cloneList cs = cs.map Field.clone := by
  induction cs with
  | nil => rfl
  | cons c cs' ih => simp [Field.cloneList, ih]

mutual

theorem fieldMatchesSchema_init (r : Option Nat) (s : Schema) :
    fieldMatchesSchema (Field.init r s) s = true := by
  match s with
  | .node n t d req ty sd cs =>
      simp [Field.init, fieldMatchesSchema, fieldsMatchSchemas_initList r cs]

theorem fieldsMatchSchemas_initList (r : Option Nat) (cs : List Schema) :
    fieldsMatchSchemas (Field.initList r cs) cs = true := by
  match cs with
  | [] => rfl
  | c :: cs' =>
      simp [Field.initList, fieldsMatchSchemas, fieldMatchesSchema_init r c,
        fieldsMatchSchemas_initList r cs']

end

mutual

theorem allRenderer_init (r : Option Nat) (s : Schema) :
    allRenderer (r.getD 0) (Field.init r s) = true := by
  match s with
  | .node n t d req ty sd cs =>
      simp [Field.init, allRenderer, allRendererList_initList r cs]

theorem allRendererList_initList (r : Option Nat) (cs : List Schema) :
    allRendererList (r.getD 0) (Field.initList r cs) = true := by
  match cs with
  | [] => rfl
  | c :: cs' =>
      simp [Field.initList, allRendererList, allRenderer_init r c,
        allRendererList_initList r cs']

end

theorem fieldsMatchSchemas_length {fs : List Field} {ss : List Schema}
    (h : fieldsMatchSchemas fs ss = true) : fs.length = ss.length := by
  induction fs generalizing ss with
  | nil => cases ss with
    | nil => rfl
    | cons s ss' => simp [fieldsMatchSchemas] at h
  | cons f fs' ih => cases ss with
    | nil => simp [fieldsMatchSchemas] at h
    | cons s ss' =>
        simp only [fieldsMatchSchemas, Bool.and_eq_true] at h
        simp [ih h.2]

theorem setWidget_widgetCache (w : Widget) (f : Field) :
    (f.setWidget w).widgetCache = some w := by
  cases f
  rfl

theorem setWidget_getWidget (w : Widget) (f : Field) :
    (f.setWidget w).getWidget = (w, f.setWidget w, false) := by
  cases f
  rfl

theorem getWidget_none {f : Field} (h : f.widgetCache = none) :
    f.getWidget =
      (Field.defaultWidgetFor f.schema,
        f.setWidget (Field.defaultWidgetFor f.schema), true) := by
  cases f with
  | mk s r n t d req cs wc dc e =>
      cases wc with
      | none => rfl
      | some w => simp [Field.widgetCache] at h

theorem getWidget_some {f : Field} {w : Widget} (h : f.widgetCache = some w) :
    f.getWidget = (w, f, false) := by
  cases f with
  | mk s r n t d req cs wc dc e =>
      cases wc with
      | none => simp [Field.widgetCache] at h
      | some w' =>
          simp [Field.widgetCache] at h
          subst h
          rfl

theorem getWidget_second (f : Field) :
    ((f.getWidget).2.1).getWidget =
      ((f.getWidget).1, (f.getWidget).2.1, false) := by
  cases f with
  | mk s r n t d req cs wc dc e => cases wc <;> rfl

theorem getWidget_frame (f : Field) :
    (f.getWidget).2.1.schema = f.schema ∧
    (f.getWidget).2.1.renderer = f.renderer ∧
    (f.getWidget).2.1.name = f.name ∧
    (f.getWidget).2.1.title = f.title ∧
    (f.getWidget).2.1.description = f.description ∧
    (f.getWidget).2.1.required = f.required ∧
    (f.getWidget).2.1.children = f.children ∧
    (f.getWidget).2.1.defaultCache = f.defaultCache ∧
    (f.getWidget).2.1.error = f.error := by
  cases f with
  | mk s r n t d req cs wc dc e =>
      cases wc <;> exact ⟨rfl, rfl, rfl, rfl, rfl, rfl, rfl, rfl, rfl⟩

theorem getWidget_cache_value (f : Field) :
    (f.getWidget).2.1.widgetCache = some (f.getWidget).1 := by
  cases f with
  | mk s r n t d req cs wc dc e => cases wc <;> rfl

theorem getDefault_none {f : Field} (h : f.defaultCache = none) :
    (f.getDefault).1 = f.schema.sdefault ∧
    (f.getDefault).2.2 = true ∧
    (f.getDefault).2.1.defaultCache = some f.schema.sdefault := by
  cases f with
  | mk s r n t d req cs wc dc e =>
      cases dc with
      | none => exact ⟨rfl, rfl, rfl⟩
      | some v => simp [Field.defaultCache] at h

theorem getDefault_some {f : Field} {v : String} (h : f.defaultCache = some v) :
    f.getDefault = (v, f, false) := by
  cases f with
  | mk s r n t d req cs wc dc e =>
      cases dc with
      | none => simp [Field.defaultCache] at h
      | some v' =>
          simp [Field.defaultCache] at h
          subst h
          rfl

theorem getDefault_second (f : Field) :
    ((f.getDefault).2.1).getDefault =
      ((f.getDefault).1, (f.getDefault).2.1, false) := by
  cases f with
  | mk s r n t d req cs wc dc e => cases dc <;> rfl

theorem lookupChild_error_iff (nm : String) (l : List Field) :
    Field.lookupChild nm l = Except.error nm ↔ ∀ c ∈ l, c.name ≠ nm := by
  induction l with
  | nil => simp [Field.lookupChild]
  | cons c cs ih =>
      by_cases h : c.name = nm
      · simp [Field.lookupChild, h]
      · simp [Field.lookupChild, h, ih]

theorem lookupChild_ok {nm : String} {l : List Field} {c : Field}
    (h : Field.lookupChild nm l = Except.ok c) : c ∈ l ∧ c.name = nm := by
  induction l with
  | nil => simp [Field.lookupChild] at h
  | cons c' cs ih =>
      by_cases hn : c'.name = nm
      · simp only [Field.lookupChild, hn, if_pos] at h
        cases h
        exact ⟨List.mem_cons_self _ _, hn⟩
      · simp only [Field.lookupChild, hn, if_neg, not_false_iff] at h
        obtain ⟨hm, he⟩ := ih h
        exact ⟨List.mem_cons_of_mem _ hm, he⟩

theorem lookupChild_exists {nm : String} {l : List Field}
    (h : ∃ c ∈ l, c.name = nm) :
    ∃ c, Field.lookupChild nm l = Except.ok c := by
  induction l with
  | nil => simp at h
  | cons c' cs ih =>
      by_cases hn : c'.name = nm
      · exact ⟨c', by simp [Field.lookupChild, hn]⟩
      · obtain ⟨c, hc, hcn⟩ := h
        rcases List.mem_cons.mp hc with hh | ht
        · exact absurd (hh ▸ hcn) hn
        · obtain ⟨c0, hc0⟩ := ih ⟨c, ht, hcn⟩
          exact ⟨c0, by simp [Field.lookupChild, hn, hc0]⟩

theorem lookupChild_nodup {l : List Field} {c : Field}
    (hnd : (l.map Field.name).Nodup) (hc : c ∈ l) :
    Field.lookupChild c.name l = Except.ok c := by
  induction l with
  | nil => simp at hc
  | cons c' cs ih =>
      simp only [List.map_cons, List.nodup_cons] at hnd
      rcases List.mem_cons.mp hc with hh | ht
      · subst hh
        simp [Field.lookupChild]
      · have hne : c'.name ≠ c.name := by
          intro he
          exact hnd.1 (he ▸ List.mem_map_of_mem Field.name ht)
        simp [Field.lookupChild, hne, ih hnd.2 ht]

theorem lookupChild_first (nm : String) (l : List Field) (i : Nat)
    (hi : i < l.length) (hname : (l.get ⟨i, hi⟩).name = nm)
    (hfirst : ∀ j, (hj : j < i) →
      (l.get ⟨j, Nat.lt_trans hj hi⟩).name ≠ nm) :
    Field.lookupChild nm l = Except.ok (l.get ⟨i, hi⟩) := by
  induction l generalizing i with
  | nil => simp at hi
  | cons c' cs ih =>
      cases i with
      | zero =>
          simp only [List.get] at hname
          simp [Field.lookupChild, hname]
      | succ k =>
          have h0 : c'.name ≠ nm := hfirst 0 (Nat.succ_pos k)
          simp only [List.get] at hname
          have hk : k < cs.length := Nat.lt_of_succ_lt_succ hi
          simp only [Field.lookupChild, h0, if_neg, not_false_iff]
          exact ih k hk hname (fun j hj => hfirst (j + 1) (Nat.succ_lt_succ hj))

theorem fieldMatchesSchema_setWidget (w : Widget) (f : Field) (s : Schema) :
    fieldMatchesSchema (f.setWidget w) s = fieldMatchesSchema f s := by
  cases f
  cases s
  rfl

/-! Claim theorems. -/

/-- C2: constructing a `Field` from a schema node snapshots the node's
`name`, `title`, `description` and `required`, stores the schema reference,
uses the given renderer or the process-wide default (`0`) when none is
given, and builds exactly one child per schema child, recursively, in the
same order and with the same renderer, so the field tree mirrors the schema
tree's shape — in particular `len(field.children) == len(schema.children)`
at every node (`fieldMatchesSchema` checks the pointwise correspondence
recursively). -/
theorem field_construction_mirrors_schema (r : Option Nat) (s : Schema) :
    (Field.init r s).schema = s ∧
    (Field.init r s).name = s.name ∧
    (Field.init r s).title = s.title ∧
    (Field.init r s).description = s.description ∧
    (Field.init r s).required = s.required ∧
    (Field.init r s).renderer = r.getD 0 ∧
    (Field.init none s).renderer = 0 ∧
    (Field.init r s).children = s.children.map (Field.init r) ∧
    (Field.init r s).children.length = s.children.length ∧
    allRenderer (r.getD 0) (Field.init r s) = true ∧
    fieldMatchesSchema (Field.init r s) s = true := by
  cases s with
  | node n t d req ty sd cs =>
      refine ⟨rfl, rfl, rfl, rfl, rfl, rfl, rfl, initList_eq_map r cs, ?_,
        allRenderer_init r _, fieldMatchesSchema_init r _⟩
      show (Field.initList r cs).length = cs.length
      rw [initList_eq_map]
      exact List.length_map cs (Field.init r)

/-- C5 counterexample: `dupField` has two distinct direct children both
named `"a"`; `dupField["a"]` returns the first, so it does not return the
second even though that second child is a direct child whose name is the
looked-up one — refuting "field[child.name] returns exactly that child,
for every child". -/
theorem getitem_duplicate_counterexample :
    childA2 ∈ dupField.children ∧ childA2.name = "a" ∧
    dupField.getitem "a" = Except.ok childA1 ∧
    dupField.getitem "a" ≠ Except.ok childA2 := by
  refine ⟨?_, rfl, rfl, ?_⟩
  · show childA2 ∈ [childA1, childA2]
    exact List.Mem.tail _ (List.Mem.head _)
  · intro h
    have h1 : dupField.getitem "a" = Except.ok childA1 := rfl
    rw [h1] at h
    have h2 : childA1 = childA2 := by injection h
    have h3 := congrArg Field.title h2
    simp [childA1, childA2, Field.title] at h3

/-- C5 (amended): `field[name]` returns a direct child named `name`
whenever one exists — specifically the first such child, so
`field[child.name]` returns exactly that child whenever the direct
children's names are pairwise distinct — it raises `KeyError(name)` exactly
when no direct child has that name, and any returned field is itself a
direct child (the lookup never descends into grandchildren). -/
theorem getitem_spec (f : Field) (nm : String) :
    (f.getitem nm = Except.error nm ↔ ∀ c ∈ f.children, c.name ≠ nm) ∧
    (∀ c, f.getitem nm = Except.ok c → c ∈ f.children ∧ c.name = nm) ∧
    ((∃ c ∈ f.children, c.name = nm) →
      ∃ c, f.getitem nm = Except.ok c ∧ c ∈ f.children ∧ c.name = nm) ∧
    ((f.children.map Field.name).Nodup →
      ∀ c ∈ f.children, f.getitem c.name = Except.ok c) := by
  refine ⟨lookupChild_error_iff nm f.children,
    fun c h => lookupChild_ok h, ?_, ?_⟩
  · intro h
    obtain ⟨c, hc⟩ := lookupChild_exists h
    obtain ⟨hm, hn⟩ := lookupChild_ok hc
    exact ⟨c, hc, hm, hn⟩
  · intro hnd c hc
    exact lookupChild_nodup hnd hc

/-- Witness for the amended C5 at a concrete field with distinct child
names. -/
theorem getitem_spec_witness :
    uniqField.getitem "b" = Except.ok childB ∧
    uniqField.getitem "nope" = Except.error "nope" := by
  constructor
  · refine (getitem_spec uniqField "b").2.2.2 ?_ childB ?_
    · decide
    · show childB ∈ [childB, childC]
      exact List.Mem.head _
  · refine ((getitem_spec uniqField "nope").1).mpr ?_
    intro c hc
    have hc' : c = childB ∨ c = childC := by
      simpa [uniqField, Field.children] using hc
    rcases hc' with rfl | rfl <;> decide

/-- C9: when several direct children share the requested name,
`field[name]` returns the first matching child in `children` (document)
order; later children with that name are never returned. -/
theorem getitem_first_match (f : Field) (nm : String) (i : Nat)
    (hi : i < f.children.length)
    (hname : (f.children.get ⟨i, hi⟩).name = nm)
    (hfirst : ∀ j, (hj : j < i) →
      (f.children.get ⟨j, Nat.lt_trans hj hi⟩).name ≠ nm) :
    f.getitem nm = Except.ok (f.children.get ⟨i, hi⟩) :=
  lookupChild_first nm f.children i hi hname hfirst

/-- Witness for C9 at the concrete field with duplicate child names. -/
theorem getitem_first_match_witness :
    dupField.getitem "a" = Except.ok childA1 :=
  getitem_first_match dupField "a" 0 (by decide) rfl
    (fun j hj => absurd hj (Nat.not_lt_zero j))

/-- C8 counterexample: for `name = "aB"`, `Button("aB").title` is `"Ab"` —
Python's `str.capitalize()` lowercases every character after the first —
not `"AB"`, the name with (only) its first letter capitalized, so the
claim fails on mixed-case names. -/
theorem button_capitalize_counterexample :
    (Button.init (some "aB") none none).title = "Ab" ∧
    upperFirst "aB" = "AB" ∧
    (Button.init (some "aB") none none).title ≠ upperFirst "aB" := by
  refine ⟨?_, ?_, ?_⟩ <;> decide

/-- C8 (amended): `Button(name)` has `title` equal to `name.capitalize()` —
the first character uppercased and all remaining characters lowercased —
and `value` equal to `name`; `Button()` defaults `name` to `"submit"`;
explicitly passed `title` and `value` are preserved unchanged. -/
theorem button_defaulting (n t v : String) :
    Button.init none none none = ⟨"submit", "Submit", "submit"⟩ ∧
    (Button.init (some n) none none).name = n ∧
    (Button.init (some n) none none).title = pyCapitalize n ∧
    (Button.init (some n) none none).value = n ∧
    Button.init (some n) (some t) (some v) = ⟨n, t, v⟩ ∧
    Button.init (some "submit") none none = ⟨"submit", "Submit", "submit"⟩ ∧
    Button.init (some "go") (some "Go!") (some "1") = ⟨"go", "Go!", "1"⟩ := by
  refine ⟨by decide, rfl, rfl, rfl, rfl, by decide, rfl⟩

/-- C7: `Form(schema, renderer, action, method, buttons)` builds the
underlying field tree from the schema, stores `action` (default `"."`) and
`method` (default `"POST"`), converts each string entry of `buttons` into a
`Button` with defaulted title and value while preserving the sequence
order, and unconditionally assigns the form widget, so the lazy
default-widget resolution never runs on the form root. -/
theorem form_init_spec (s : Schema) (r : Option Nat) (a m : Option String)
    (bs : List ButtonSpec) :
    (Form.init s r a m bs).field =
      Field.setWidget Widget.formWidget (Field.init r s) ∧
    (Form.init s r a m bs).action = a.getD "." ∧
    (Form.init s r a m bs).method = m.getD "POST" ∧
    (Form.init s r none none bs).action = "." ∧
    (Form.init s r none none bs).method = "POST" ∧
    (Form.init s r a m bs).buttons = bs.map ButtonSpec.toButton ∧
    (∀ str, ButtonSpec.toButton (ButtonSpec.str str) =
      Button.init (some str) none none) ∧
    (Form.init s r a m [ButtonSpec.str "submit",
        ButtonSpec.str "cancel"]).buttons =
      [⟨"submit", "Submit", "submit"⟩, ⟨"cancel", "Cancel", "cancel"⟩] ∧
    (Form.init s r a m bs).field.widgetCache = some Widget.formWidget ∧
    (Form.init s r a m bs).field.getWidget =
      (Widget.formWidget, (Form.init s r a m bs).field, false) ∧
    fieldMatchesSchema (Form.init s r a m bs).field s = true := by
  refine ⟨rfl, rfl, rfl, rfl, rfl, rfl, fun str => rfl, rfl, ?_, ?_, ?_⟩
  · exact setWidget_widgetCache _ _
  · exact setWidget_getWidget _ _
  · rw [show (Form.init s r a m bs).field =
        Field.setWidget Widget.formWidget (Field.init r s) from rfl,
      fieldMatchesSchema_setWidget]
    exact fieldMatchesSchema_init r s

/-- C3: `clone()` returns a field (of the model's one field type, as
`self.__class__(self.schema)` preserves the class) that shares the schema
reference, copies every non-`children` attribute from the source's current
state — in particular a resolved `widget`/`default` cache is carried over
as is and an unresolved one stays unresolved, so cloning never forces the
lazy computation, and the clone's first `widget` access yields the same
value and runs the lazy computation exactly when the original's would —
and clones every child recursively; updates are explicit in the embedding
(`setWidget` returns a new value), so assigning a widget on the clone
yields that widget on the result while any previously held state, the
original included, is unchanged. -/
theorem clone_spec (f : Field) (w : Widget) :
    (f.clone).schema = f.schema ∧
    (f.clone).renderer = f.renderer ∧
    (f.clone).name = f.name ∧
    (f.clone).title = f.title ∧
    (f.clone).description = f.description ∧
    (f.clone).required = f.required ∧
    (f.clone).widgetCache = f.widgetCache ∧
    (f.clone).defaultCache = f.defaultCache ∧
    (f.clone).error = f.error ∧
    (f.clone).children = f.children.map Field.clone ∧
    ((f.clone).getWidget).1 = (f.getWidget).1 ∧
    ((f.clone).getWidget).2.2 = (f.getWidget).2.2 ∧
    ((f.clone).setWidget w).widgetCache = some w ∧
    ((f.clone).setWidget w).error = f.error ∧
    ((f.clone).setWidget w).children = f.children.map Field.clone := by
  cases f with
  | mk s r n t d req cs wc dc e =>
      refine ⟨rfl, rfl, rfl, rfl, rfl, rfl, rfl, rfl, rfl,
        cloneList_eq_map cs, ?_, ?_, rfl, rfl, ?_⟩
      · cases wc <;> rfl
      · cases wc <;> rfl
      · show Field.cloneList cs = cs.map Field.clone
        exact cloneList_eq_map cs

/-- C4: the `widget` and `default` attributes are each computed at most
once per field: if `widget` is unassigned, the first access yields the
schema type's `default_widget_maker` product when that factory exists and
a generic `TextInputWidget` otherwise, caching it; the first access to
`default` yields `schema.sdefault`; every later access returns the
identical cached value with the lazy computation not running again (the
returned flag is `false`); and an assignment before the first access means
the lazy computation never runs.  (The `reify` caching mechanism is
modelled from the spec; `deform/decorator.py` is not among the sources
under study.) -/
theorem reify_at_most_once (f : Field) (w : Widget) :
    (f.widgetCache = none →
      f.getWidget = (Field.defaultWidgetFor f.schema,
        f.setWidget (Field.defaultWidgetFor f.schema), true)) ∧
    (f.schema.typ.default_widget_maker = none → f.widgetCache = none →
      (f.getWidget).1 = Widget.textInput) ∧
    (∀ wm, f.schema.typ.default_widget_maker = some wm →
      f.widgetCache = none → (f.getWidget).1 = wm) ∧
    (∀ w0, f.widgetCache = some w0 → f.getWidget = (w0, f, false)) ∧
    ((f.getWidget).2.1.getWidget =
      ((f.getWidget).1, (f.getWidget).2.1, false)) ∧
    ((f.setWidget w).getWidget = (w, f.setWidget w, false)) ∧
    (f.defaultCache = none →
      (f.getDefault).1 = f.schema.sdefault ∧
      (f.getDefault).2.1.defaultCache = some f.schema.sdefault ∧
      (f.getDefault).2.2 = true) ∧
    (∀ v, f.defaultCache = some v → f.getDefault = (v, f, false)) ∧
    ((f.getDefault).2.1.getDefault =
      ((f.getDefault).1, (f.getDefault).2.1, false)) := by
  refine ⟨fun h => getWidget_none h, ?_, ?_,
    fun w0 h => getWidget_some h, getWidget_second f, setWidget_getWidget w f,
    fun h => ⟨(getDefault_none h).1, (getDefault_none h).2.2,
      (getDefault_none h).2.1⟩,
    fun v h => getDefault_some h, getDefault_second f⟩
  · intro hm h
    rw [getWidget_none h]
    simp [Field.defaultWidgetFor, hm]
  · intro wm hm h
    rw [getWidget_none h]
    simp [Field.defaultWidgetFor, hm]

/-- Witness for C4: the lazy computations at concrete fields — the
text-input fallback, the type-provided factory, the memoized second
access, and the serialized schema default. -/
theorem reify_at_most_once_witness :
    ((Field.init none schemaColor).getWidget).1 = Widget.textInput ∧
    ((Field.init none schemaPet).getWidget).1 = Widget.custom 5 ∧
    (((Field.init none schemaPet).getWidget).2.1.getWidget).2.2 = false ∧
    ((Field.init none schemaPet).getDefault).1 = "goldfish" := by
  have hColor := reify_at_most_once (Field.init none schemaColor)
    Widget.textInput
  have hPet := reify_at_most_once (Field.init none schemaPet)
    Widget.textInput
  refine ⟨hColor.2.1 rfl rfl, hPet.2.2.1 (Widget.custom 5) rfl rfl, ?_, ?_⟩
  · exact congrArg (fun p => p.2.2) hPet.2.2.2.2.1
  · exact (hPet.2.2.2.2.2.2.1 rfl).1

/-- C1: `Field.validate(fields)` computes
`pstruct = peppercorn.parse(fields)`, then
`cstruct = widget.deserialize(field, pstruct)` (through the reified widget
access), then `schema.deserialize(cstruct)`; if schema deserialization
succeeds, exactly that deserialized value is returned, and if it raises
`colander.Invalid`, `widget.handle_error(field, error)` runs first and
then a `ValidationFailure` is raised carrying exactly the field validated
against (in its post-`handle_error` state), the failed cstruct, and the
underlying schema validation error. -/
theorem validate_pipeline {P C V E : Type} (cb : Collab P C V E) (f : Field)
    (fields : List (String × String)) (p : P) (c : C)
    (hp : cb.parse fields = Except.ok p)
    (hw : cb.wdeserialize (f.getWidget).1 (f.getWidget).2.1 p =
      Except.ok c) :
    (∀ v, cb.sdeserialize f.schema c = Except.ok v →
      f.validate cb fields = (Except.ok v, (f.getWidget).2.1)) ∧
    (∀ e f3, cb.sdeserialize f.schema c =
        Except.error (PyExc.colanderInvalid e) →
      cb.whandle_error (f.getWidget).1 (f.getWidget).2.1 e =
        Except.ok f3 →
      f.validate cb fields =
        (Except.error (PyExc.validationFailure f3 c e), f3)) := by
  have hschema : (f.getWidget).2.1.schema = f.schema := (getWidget_frame f).1
  constructor
  · intro v hv
    simp only [Field.validate, hp, hw, hschema, hv]
  · intro e f3 hv hh
    simp only [Field.validate, hp, hw, hschema, hv, getWidget_second f, hh]

/-- Witness for C1: the success and the validation-failure paths of
`validate` at concrete collaborators (`cbInvalid`'s `handle_error` mutates
the field, and the raised failure carries that mutated field, the failed
cstruct `2` and the underlying error `9`). -/
theorem validate_pipeline_witness :
    rootField.validate cbOk [("k", "v")] =
      (Except.ok 42, (rootField.getWidget).2.1) ∧
    rootField.validate cbInvalid [] =
      (Except.error (PyExc.validationFailure
          ((rootField.getWidget).2.1.setWidget (Widget.custom 7)) 2 9),
        (rootField.getWidget).2.1.setWidget (Widget.custom 7)) := by
  constructor
  · exact (validate_pipeline cbOk rootField [("k", "v")] 1 2 rfl rfl).1 42 rfl
  · exact (validate_pipeline cbInvalid rootField [] 1 2 rfl rfl).2 9
      ((rootField.getWidget).2.1.setWidget (Widget.custom 7)) rfl rfl

/-- C6: an error leaving `validate` is accounted for in exactly one of
these ways — it is the exception `peppercorn.parse` raised, unmodified; or
the exception `widget.deserialize` raised, unmodified; or a
non-`colander.Invalid` exception `schema.deserialize` raised, unmodified;
or, when `schema.deserialize` raised `colander.Invalid`, the exception
`widget.handle_error` raised, unmodified; or the `ValidationFailure` built
from the `colander.Invalid` that `schema.deserialize` raised after
`handle_error` ran.  Only `colander.Invalid` from schema deserialization
is converted into a validation failure; every other collaborator exception
propagates out unmodified; and any call's outcome is one `Except` value —
a deserialized value or a raised exception. -/
theorem validate_error_source {P C V E : Type} (cb : Collab P C V E)
    (f : Field) (fields : List (String × String)) (exc : PyExc C E)
    (fN : Field)
    (h : f.validate cb fields = (Except.error exc, fN)) :
    cb.parse fields = Except.error exc ∨
    (∃ p, cb.parse fields = Except.ok p ∧
      cb.wdeserialize (f.getWidget).1 (f.getWidget).2.1 p =
        Except.error exc) ∨
    (∃ p c, cb.parse fields = Except.ok p ∧
      cb.wdeserialize (f.getWidget).1 (f.getWidget).2.1 p = Except.ok c ∧
      cb.sdeserialize f.schema c = Except.error exc ∧
      ∀ e, exc ≠ PyExc.colanderInvalid e) ∨
    (∃ p c e, cb.parse fields = Except.ok p ∧
      cb.wdeserialize (f.getWidget).1 (f.getWidget).2.1 p = Except.ok c ∧
      cb.sdeserialize f.schema c =
        Except.error (PyExc.colanderInvalid e) ∧
      cb.whandle_error (f.getWidget).1 (f.getWidget).2.1 e =
        Except.error exc) ∨
    (∃ p c e f3, cb.parse fields = Except.ok p ∧
      cb.wdeserialize (f.getWidget).1 (f.getWidget).2.1 p = Except.ok c ∧
      cb.sdeserialize f.schema c =
        Except.error (PyExc.colanderInvalid e) ∧
      cb.whandle_error (f.getWidget).1 (f.getWidget).2.1 e =
        Except.ok f3 ∧
      exc = PyExc.validationFailure f3 c e) := by
  have hschema : (f.getWidget).2.1.schema = f.schema := (getWidget_frame f).1
  cases hpe : cb.parse fields with
  | error e0 =>
      simp only [Field.validate, hpe, Prod.mk.injEq, Except.error.injEq] at h
      exact Or.inl (h.1 ▸ rfl)
  | ok p =>
      simp only [Field.validate, hpe, hschema, getWidget_second f] at h
      cases hwd : cb.wdeserialize (f.getWidget).1 (f.getWidget).2.1 p with
      | error e0 =>
          simp only [hwd, Prod.mk.injEq, Except.error.injEq] at h
          exact Or.inr (Or.inl ⟨p, rfl, h.1 ▸ hwd⟩)
      | ok c =>
          simp only [hwd] at h
          cases hsd : cb.sdeserialize f.schema c with
          | ok v =>
              simp only [hsd, Prod.mk.injEq] at h
              exact absurd h.1 (by simp)
          | error e0 =>
              cases e0 with
              | colanderInvalid e =>
                  simp only [hsd] at h
                  cases hhe : cb.whandle_error (f.getWidget).1
                      (f.getWidget).2.1 e with
                  | error e1 =>
                      simp only [hhe, Prod.mk.injEq,
                        Except.error.injEq] at h
                      exact Or.inr (Or.inr (Or.inr (Or.inl
                        ⟨p, c, e, rfl, hwd, hsd, h.1 ▸ hhe⟩)))
                  | ok f3 =>
                      simp only [hhe, Prod.mk.injEq,
                        Except.error.injEq] at h
                      exact Or.inr (Or.inr (Or.inr (Or.inr
                        ⟨p, c, e, f3, rfl, hwd, hsd, hhe, h.1.symm⟩)))
              | validationFailure f3 c0 e =>
                  simp only [hsd, Prod.mk.injEq, Except.error.injEq] at h
                  refine Or.inr (Or.inr (Or.inl
                    ⟨p, c, rfl, hwd, h.1 ▸ hsd, ?_⟩))
                  intro e1 he1
                  rw [← h.1] at he1
                  exact PyExc.noConfusion he1
              | other k =>
                  simp only [hsd, Prod.mk.injEq, Except.error.injEq] at h
                  refine Or.inr (Or.inr (Or.inl
                    ⟨p, c, rfl, hwd, h.1 ▸ hsd, ?_⟩))
                  intro e1 he1
                  rw [← h.1] at he1
                  exact PyExc.noConfusion he1

/-- Witness for C6 at collaborators whose parser raises a
non-`colander.Invalid` exception: the instantiated source-accounting
disjunction. -/
theorem validate_error_source_witness :
    cbParseBoom.parse [] = Except.error (PyExc.other 7) ∨
    (∃ p, cbParseBoom.parse [] = Except.ok p ∧
      cbParseBoom.wdeserialize (rootField.getWidget).1
        (rootField.getWidget).2.1 p = Except.error (PyExc.other 7)) ∨
    (∃ p c, cbParseBoom.parse [] = Except.ok p ∧
      cbParseBoom.wdeserialize (rootField.getWidget).1
        (rootField.getWidget).2.1 p = Except.ok c ∧
      cbParseBoom.sdeserialize rootField.schema c =
        Except.error (PyExc.other 7) ∧
      ∀ e, (PyExc.other 7 : PyExc Nat Nat) ≠ PyExc.colanderInvalid e) ∨
    (∃ p c e, cbParseBoom.parse [] = Except.ok p ∧
      cbParseBoom.wdeserialize (rootField.getWidget).1
        (rootField.getWidget).2.1 p = Except.ok c ∧
      cbParseBoom.sdeserialize rootField.schema c =
        Except.error (PyExc.colanderInvalid e) ∧
      cbParseBoom.whandle_error (rootField.getWidget).1
        (rootField.getWidget).2.1 e = Except.error (PyExc.other 7)) ∨
    (∃ p c e f3, cbParseBoom.parse [] = Except.ok p ∧
      cbParseBoom.wdeserialize (rootField.getWidget).1
        (rootField.getWidget).2.1 p = Except.ok c ∧
      cbParseBoom.sdeserialize rootField.schema c =
        Except.error (PyExc.colanderInvalid e) ∧
      cbParseBoom.whandle_error (rootField.getWidget).1
        (rootField.getWidget).2.1 e = Except.ok f3 ∧
      (PyExc.other 7 : PyExc Nat Nat) =
        PyExc.validationFailure f3 c e) :=
  validate_error_source cbParseBoom rootField [] (PyExc.other 7)
    rootField rfl

/-- C10 counterexample: at a field whose lazy `widget` is still unresolved,
a successful `validate` call does write an attribute of the field — the
reified access caches the resolved widget — so the post-call field state
differs from the pre-call state even though validation succeeded. -/
theorem validate_success_mutates_widget_cache :
    (rootField.validate cbOk []).1 = Except.ok 42 ∧
    rootField.widgetCache = none ∧
    ((rootField.validate cbOk []).2).widgetCache = some Widget.textInput ∧
    (rootField.validate cbOk []).2 ≠ rootField := by
  refine ⟨rfl, rfl, rfl, ?_⟩
  intro h
  have h3 : (some Widget.textInput : Option Widget) = none := by
    calc some Widget.textInput
        = ((rootField.validate cbOk []).2).widgetCache := rfl
      _ = rootField.widgetCache := congrArg Field.widgetCache h
      _ = none := rfl
  exact Option.noConfusion h3

/-- C10 (amended): when `validate` succeeds (schema deserialization raises
no validation error), the widget's `handle_error` hook is never invoked —
the call's outcome is the same for every `handle_error` behaviour — and
`validate` writes no attribute of this field or any descendant, except
that when this field's lazy `widget` was still unresolved the reified
access caches it on this field; every field's `error` attribute, the
`children` list (hence every descendant) and every other attribute are
exactly what they were before the call, and if `widget` was already
resolved or assigned, the field state is entirely unchanged. -/
theorem validate_success_frame {P C V E : Type} (cb : Collab P C V E)
    (f : Field) (fields : List (String × String)) (p : P) (c : C) (v : V)
    (hp : cb.parse fields = Except.ok p)
    (hw : cb.wdeserialize (f.getWidget).1 (f.getWidget).2.1 p =
      Except.ok c)
    (hs : cb.sdeserialize f.schema c = Except.ok v) :
    (∀ he, Field.validate ⟨cb.parse, cb.wdeserialize, he, cb.sdeserialize⟩
      f fields = (Except.ok v, (f.getWidget).2.1)) ∧
    (f.validate cb fields = (Except.ok v, (f.getWidget).2.1)) ∧
    ((f.getWidget).2.1.error = f.error) ∧
    ((f.getWidget).2.1.children = f.children) ∧
    ((f.getWidget).2.1.schema = f.schema) ∧
    ((f.getWidget).2.1.renderer = f.renderer) ∧
    ((f.getWidget).2.1.name = f.name) ∧
    ((f.getWidget).2.1.title = f.title) ∧
    ((f.getWidget).2.1.description = f.description) ∧
    ((f.getWidget).2.1.required = f.required) ∧
    ((f.getWidget).2.1.defaultCache = f.defaultCache) ∧
    (∀ w0, f.widgetCache = some w0 → (f.getWidget).2.1 = f) := by
  have hframe := getWidget_frame f
  refine ⟨?_, ?_, hframe.2.2.2.2.2.2.2.2, hframe.2.2.2.2.2.2.1, hframe.1,
    hframe.2.1, hframe.2.2.1, hframe.2.2.2.1, hframe.2.2.2.2.1,
    hframe.2.2.2.2.2.1, hframe.2.2.2.2.2.2.2.1, ?_⟩
  · intro he
    simp only [Field.validate, hp, hw, (getWidget_frame f).1, hs]
  · simp only [Field.validate, hp, hw, (getWidget_frame f).1, hs]
  · intro w0 h0
    rw [getWidget_some h0]

/-- Witness for the amended C10 at a concrete field and all-success
collaborators. -/
theorem validate_success_frame_witness :
    rootField.validate cbOk [] = (Except.ok 42, (rootField.getWidget).2.1) ∧
    ((rootField.getWidget).2.1).error = rootField.error := by
  have h := validate_success_frame cbOk rootField [] 1 2 42 rfl rfl rfl
  exact ⟨h.2.1, h.2.2.1⟩

end Deform
